import Mathlib

/-!
Verification development for the scrape-target configuration compiler of the
prometheus-engine operator (pkg/operator/apis/monitoring/v1alpha1/types.go).
The Go code is embedded shallowly: Go structs become Lean structures, the
per-endpoint compilation pipeline becomes a function into Except, and the
nondeterministically iterated Go map of selector labels becomes an association
list whose keys the compiler sorts, exactly as the source does.
-/

/-- Action of a relabeling rule, from the prometheus relabel package
(relabel.Keep, relabel.Drop, relabel.Replace are the ones the compiler uses). -/
inductive RelabelAction where
  | keep
  | drop
  | replace
deriving DecidableEq, Repr

/-- A compiled regular expression of the prometheus relabel package.
relabel.NewRegexp stores the pattern anchored as caret (?: s ) dollar; we keep
that anchored pattern string. -/
structure Regexp where
  pattern : String
deriving DecidableEq, Repr

/-- Modelled behavior of relabel.NewRegexp from the external prometheus
relabel library: anchors the pattern. Pattern-validity checking lives in the
external Go regexp engine, outside this repository; compilation is modelled as
always succeeding, which no claim in this development depends on. -/
def relabelNewRegexp (s : String) : Except String Regexp :=
  .ok ⟨"^(?:" ++ s ++ ")$"⟩

/-- relabel.MustNewRegexp: same anchoring, cannot fail. -/
def MustNewRegexp (s : String) : Regexp :=
  ⟨"^(?:" ++ s ++ ")$"⟩

/-- One relabeling rule (relabel.Config). Fields the source never sets stay at
their Go zero values, as in the struct literals of the source. -/
structure RelabelConfig where
  action : RelabelAction
  sourceLabels : List String := []
  regex : Option Regexp := none
  replacement : String := ""
  targetLabel : String := ""
deriving DecidableEq, Repr

/-- Discriminator of intstr.IntOrString. -/
inductive IntOrStringType where
  | int
  | str
deriving DecidableEq, Repr, Inhabited

/-- k8s intstr.IntOrString: a value that is either a numeric or a string port. -/
structure IntOrString where
  typ : IntOrStringType := .int
  intVal : Int := 0
  strVal : String := ""
deriving DecidableEq, Repr, Inhabited

/-- The String method of intstr.IntOrString, used in the generated job name. -/
def IntOrString.string (p : IntOrString) : String :=
  match p.typ with
  | .str => p.strVal
  | .int => toString p.intVal

/-- ScrapeEndpoint of the PodMonitoring spec. -/
structure ScrapeEndpoint where
  Port : IntOrString := {}
  Path : String := ""
  Interval : String := ""
  Timeout : String := ""
deriving DecidableEq, Repr, Inhabited

/-- LabelMapping: transfer a Kubernetes resource label onto a target label. -/
structure LabelMapping where
  From : String
  To : String := ""
deriving DecidableEq, Repr

/-- metav1.LabelSelectorRequirement. The operator is a string type in Go with
four recognized constants; unrecognized strings are possible values. -/
structure LabelSelectorRequirement where
  Key : String
  Operator : String
  Values : List String := []
deriving DecidableEq, Repr

def LabelSelectorOpIn : String := "In"

def LabelSelectorOpNotIn : String := "NotIn"

def LabelSelectorOpExists : String := "Exists"

def LabelSelectorOpDoesNotExist : String := "DoesNotExist"

/-- metav1.LabelSelector. The Go MatchLabels map is modelled as an association
list; list order stands for the nondeterministic map iteration order, which the
compiler neutralizes by sorting the keys before use. -/
structure LabelSelector where
  MatchLabels : List (String × String) := []
  MatchExpressions : List LabelSelectorRequirement := []
deriving DecidableEq, Repr

/-- TargetLabels groups label mappings by Kubernetes resource. -/
structure TargetLabels where
  FromPod : List LabelMapping := []
deriving DecidableEq, Repr

/-- PodMonitoringSpec: selector, endpoints, and target-label mappings. -/
structure PodMonitoringSpec where
  Selector : LabelSelector := {}
  Endpoints : List ScrapeEndpoint := []
  TargetLabels : TargetLabels := {}
deriving DecidableEq, Repr

/-- PodMonitoring resource; of its ObjectMeta only Namespace and Name are read
by the compiler. -/
structure PodMonitoring where
  Namespace : String := ""
  Name : String := ""
  Spec : PodMonitoringSpec := {}
deriving DecidableEq, Repr

/-- Error of the label-mapping compiler: the mapping conflicts with the GMP
target schema (the source formats it as a string; we keep the two offending
field values). -/
inductive MappingError where
  | reservedCollision (src dst : String)
deriving DecidableEq, Repr

/-- Error compiling one endpoint, mirroring the error returns of
endpontScrapeConfig in the order the source can produce them. -/
inductive EndpointError where
  | invalidPortName (pat : String)
  | missingPort
  | invalidTargetLabels (e : MappingError)
  | invalidScrapeInterval (msg : String)
  | invalidScrapeTimeout (msg : String)
  | timeoutGreaterThanInterval (timeout interval : Nat)
deriving DecidableEq, Repr

/-- Error of ScrapeConfigs / ValidateCreate: either no endpoint at all, or a
wrapped endpoint error carrying the endpoint index, as errors.Wrapf does. -/
inductive CompileError where
  | noEndpoints
  | endpointError (index : Nat) (e : EndpointError)
deriving DecidableEq, Repr

/-- Characters legal in a Prometheus label name, the alphabet of
invalidLabelCharRE in the source. -/
def isValidLabelChar (c : Char) : Bool :=
  (('a' ≤ c) && (c ≤ 'z')) || (('A' ≤ c) && (c ≤ 'Z')) ||
    (('0' ≤ c) && (c ≤ '9')) || (c == '_')

/-- sanitizeLabelName: replace every character outside a-zA-Z0-9_ with an
underscore (invalidLabelCharRE.ReplaceAllString). -/
def sanitizeLabelName (name : String) : String :=
  String.mk (name.data.map (fun c => if isValidLabelChar c then c else '_'))

/-- Modelled from the spec: the reserved identity label constants KeyProjectID,
KeyLocation, KeyCluster, KeyNamespace, KeyJob, KeyInstance come from the
export package (pkg/export), which is not among the sources; the spec lists
the six reserved identity labels as project, location, cluster, namespace,
job, instance. -/
def KeyProjectID : String := "project"

/-- Modelled from the spec: see KeyProjectID. -/
def KeyLocation : String := "location"

/-- Modelled from the spec: see KeyProjectID. -/
def KeyCluster : String := "cluster"

/-- Modelled from the spec: see KeyProjectID. -/
def KeyNamespace : String := "namespace"

/-- Modelled from the spec: see KeyProjectID. -/
def KeyJob : String := "job"

/-- Modelled from the spec: see KeyProjectID. -/
def KeyInstance : String := "instance"

/-- isPrometheusTargetLabel: true if the label is in use by the Prometheus
target schema. -/
def isPrometheusTargetLabel (label : String) : Bool :=
  label == KeyProjectID || label == KeyLocation || label == KeyCluster ||
    label == KeyNamespace || label == KeyJob || label == KeyInstance

/-- Accumulating decimal reading of a digit string, as strconv.Atoi does on an
all-digit input. -/
def charsToNatAux : Nat → List Char → Nat
  | acc, [] => acc
  | acc, c :: cs => charsToNatAux (acc * 10 + (c.toNat - 48)) cs

def isDigitChar (c : Char) : Bool := ('0' ≤ c) && (c ≤ '9')

/-- The error message of the external duration parser, with the Go percent-q
quoting of the offending string. -/
def durationErrMsg (s : String) : String :=
  "not a valid duration string: " ++ "\"" ++ s ++ "\""

/-- Milliseconds per duration unit of the Prometheus duration syntax. -/
def unitMultiplierMs (u : String) : Option Nat :=
  if u == "ms" then some 1
  else if u == "s" then some 1000
  else if u == "m" then some 60000
  else if u == "h" then some 3600000
  else if u == "d" then some 86400000
  else if u == "w" then some 604800000
  else if u == "y" then some 31536000000
  else none

/-- Modelled behavior of prommodel.ParseDuration from the external prometheus
common library: a string of decimal digits followed by one unit of
y w d h m s ms, anything else rejected (in particular the empty string).
The result is in milliseconds; only equality and order of results matter to
this development. -/
def parseDuration (s : String) : Except String Nat :=
  let cs := s.data
  let split : List Char × String :=
    if cs.length ≥ 2 && cs.drop (cs.length - 2) == ['m', 's'] then
      (cs.take (cs.length - 2), "ms")
    else
      (cs.take (cs.length - 1), String.mk (cs.drop (cs.length - 1)))
  if split.1.length > 0 && split.1.all isDigitChar then
    match unitMultiplierMs split.2 with
    | some mult => .ok (charsToNatAux 0 split.1 * mult)
    | none => .error (durationErrMsg s)
  else .error (durationErrMsg s)

/-- labelMappingRelabelConfigs: one Replace rule per mapping, in declaration
order, rejecting a mapping whose To field collides with the target schema
before To is defaulted to From, exactly as the source loop does. -/
def labelMappingRelabelConfigs : List LabelMapping → String →
    Except MappingError (List RelabelConfig)
  | [], _ => .ok []
  | m :: ms, pfx =>
    if isPrometheusTargetLabel m.To then
      .error (.reservedCollision m.From m.To)
    else
      let dst := if m.To == "" then m.From else m.To
      match labelMappingRelabelConfigs ms pfx with
      | .error e => .error e
      | .ok cfgs =>
        .ok ({ action := .replace,
               sourceLabels := [pfx ++ sanitizeLabelName m.From],
               targetLabel := dst } :: cfgs)

/-- The selector keys collected from the match-labels map and sorted, as the
source does with sort.Strings to make output reproducible. -/
def selectorKeys (ml : List (String × String)) : List String :=
  List.insertionSort (· ≤ ·) (ml.map Prod.fst)

/-- One Keep rule per exact-match selector label, in sorted key order. -/
def exactMatchCfgs (ml : List (String × String)) : List RelabelConfig :=
  (selectorKeys ml).map fun k =>
    { action := .keep,
      sourceLabels := ["__meta_kubernetes_pod_label_" ++ sanitizeLabelName k],
      regex := some (MustNewRegexp ((ml.lookup k).getD "")) }

/-- Rules for one selector expression: the switch over the four recognized
operators; any other operator falls through to no rule at all. -/
def expressionCfg (exp : LabelSelectorRequirement) : List RelabelConfig :=
  if exp.Operator == LabelSelectorOpIn then
    [{ action := .keep,
       sourceLabels := ["__meta_kubernetes_pod_label_" ++ sanitizeLabelName exp.Key],
       regex := some (MustNewRegexp (String.intercalate "|" exp.Values)) }]
  else if exp.Operator == LabelSelectorOpNotIn then
    [{ action := .drop,
       sourceLabels := ["__meta_kubernetes_pod_label_" ++ sanitizeLabelName exp.Key],
       regex := some (MustNewRegexp (String.intercalate "|" exp.Values)) }]
  else if exp.Operator == LabelSelectorOpExists then
    [{ action := .keep,
       sourceLabels := ["__meta_kubernetes_pod_labelpresent_" ++ sanitizeLabelName exp.Key],
       regex := some (MustNewRegexp "true") }]
  else if exp.Operator == LabelSelectorOpDoesNotExist then
    [{ action := .drop,
       sourceLabels := ["__meta_kubernetes_pod_labelpresent_" ++ sanitizeLabelName exp.Key],
       regex := some (MustNewRegexp "true") }]
  else []

/-- Rules for the selector expressions, preserving declaration order. -/
def expressionCfgs (exprs : List LabelSelectorRequirement) : List RelabelConfig :=
  exprs.flatMap expressionCfg

/-- The leading Keep rule restricting discovered targets to the namespace of
the PodMonitoring configuration. -/
def namespaceFilterCfg (ns : String) : RelabelConfig :=
  { action := .keep,
    sourceLabels := ["__meta_kubernetes_namespace"],
    regex := some (MustNewRegexp ns) }

/-- Identity normalization: rewrite the discovered namespace into the
namespace target label. -/
def namespaceNormCfg : RelabelConfig :=
  { action := .replace,
    sourceLabels := ["__meta_kubernetes_namespace"],
    targetLabel := "namespace" }

/-- Identity normalization: set the job label to the resource name. -/
def jobNormCfg (name : String) : RelabelConfig :=
  { action := .replace, replacement := name, targetLabel := "job" }

/-- Keep rule filtering by declared container port name. -/
def portNameKeepCfg (r : Regexp) : RelabelConfig :=
  { action := .keep,
    sourceLabels := ["__meta_kubernetes_pod_container_port_name"],
    regex := some r }

/-- Replace rule building the instance label from pod name and port name. -/
def instanceFromPortNameCfg : RelabelConfig :=
  { action := .replace,
    sourceLabels := ["__meta_kubernetes_pod_name", "__meta_kubernetes_pod_container_port_name"],
    regex := some (MustNewRegexp "(.+);(.+)"),
    replacement := "$1:$2",
    targetLabel := "instance" }

/-- Replace rule building the instance label from pod name and port number. -/
def instanceFromPortNumberCfg (n : Int) : RelabelConfig :=
  { action := .replace,
    sourceLabels := ["__meta_kubernetes_pod_name"],
    replacement := "$1:" ++ toString n,
    targetLabel := "instance" }

/-- Replace rule overriding the pre-filled scrape address with the configured
port number. -/
def addressFromPortNumberCfg (n : Int) : RelabelConfig :=
  { action := .replace,
    sourceLabels := ["__meta_kubernetes_pod_ip"],
    replacement := "$1:" ++ toString n,
    targetLabel := "__address__" }

/-- The port-name branch of the port block: compile the name into a regexp,
then Keep by container port name and derive the instance label. -/
def portNamePath (s : String) : Except EndpointError (List RelabelConfig) :=
  match relabelNewRegexp s with
  | .error _ => .error (.invalidPortName s)
  | .ok r => .ok [portNameKeepCfg r, instanceFromPortNameCfg]

/-- The numeric-port branch of the port block: hardcode the port into instance
and address. -/
def portNumberPath (n : Int) : Except EndpointError (List RelabelConfig) :=
  .ok [instanceFromPortNumberCfg n, addressFromPortNumberCfg n]

/-- The port block of endpontScrapeConfig: name takes precedence, then a
non-zero number, otherwise the port is missing. -/
def portRelabelCfgs (port : IntOrString) : Except EndpointError (List RelabelConfig) :=
  if port.strVal ≠ "" then portNamePath port.strVal
  else if port.intVal ≠ 0 then portNumberPath port.intVal
  else .error .missingPort

/-- The kubernetes service-discovery configuration the compiler emits, reduced
to the fields the source sets: pod role and the node-name field selector with
the literal environment placeholder. -/
structure KubeSDConfig where
  role : String := "pod"
  fieldSelector : String := ""
deriving DecidableEq, Repr

def EnvVarNodeName : String := "NODE_NAME"

/-- The single discovery configuration shared by all scrape jobs. -/
def discoveryCfg : KubeSDConfig :=
  { role := "pod", fieldSelector := "spec.nodeName=$(" ++ EnvVarNodeName ++ ")" }

/-- promconfig.ScrapeConfig, reduced to the fields the source sets. Durations
are in milliseconds. -/
structure ScrapeConfig where
  JobName : String := ""
  ServiceDiscoveryConfigs : List KubeSDConfig := []
  MetricsPath : String := ""
  ScrapeInterval : Nat := 0
  ScrapeTimeout : Nat := 0
  RelabelConfigs : List RelabelConfig := []
deriving DecidableEq, Repr

/-- The discovery-label namespace for pod labels, passed by the source to
labelMappingRelabelConfigs. -/
def podLabelPfx : String := "__meta_kubernetes_pod_label_"

/-- The endpoint at the given index; the source indexes
pm.Spec.Endpoints with an index the caller keeps in range. -/
def epAt (pm : PodMonitoring) (index : Nat) : ScrapeEndpoint :=
  pm.Spec.Endpoints.getD index {}

/-- The timeout block of endpontScrapeConfig: an unset timeout defaults to the
interval; a set one must parse and must not exceed the interval. -/
def resolveTimeout (timeoutStr : String) (interval : Nat) : Except EndpointError Nat :=
  if timeoutStr ≠ "" then
    match parseDuration timeoutStr with
    | .error msg => .error (.invalidScrapeTimeout msg)
    | .ok t => if interval < t then .error (.timeoutGreaterThanInterval t interval) else .ok t
  else .ok interval

/-- The job specification assembled on the success path of
endpontScrapeConfig. -/
def assembledConfig (pm : PodMonitoring) (index : Nat)
    (portCfgs mapCfgs : List RelabelConfig) (interval timeout : Nat) : ScrapeConfig :=
  { JobName := "PodMonitoring/" ++ pm.Namespace ++ "/" ++ pm.Name ++ "/" ++ (epAt pm index).Port.string,
    ServiceDiscoveryConfigs := [discoveryCfg],
    MetricsPath := if (epAt pm index).Path ≠ "" then (epAt pm index).Path else "/metrics",
    ScrapeInterval := interval,
    ScrapeTimeout := timeout,
    RelabelConfigs :=
      namespaceFilterCfg pm.Namespace ::
        (exactMatchCfgs pm.Spec.Selector.MatchLabels
          ++ expressionCfgs pm.Spec.Selector.MatchExpressions
          ++ [namespaceNormCfg, jobNormCfg pm.Name]
          ++ portCfgs ++ mapCfgs) }

/-- endpontScrapeConfig (the source name, misspelling included): compile one
endpoint of a PodMonitoring into a scrape configuration, in the source order:
namespace filter, sorted exact-match selector rules, expression rules in
declaration order, identity normalization, port rules, label-mapping rules;
the port block errors first, then the mapping block, then the interval parse,
then the timeout block. -/
def endpontScrapeConfig (pm : PodMonitoring) (index : Nat) :
    Except EndpointError ScrapeConfig :=
  match portRelabelCfgs (epAt pm index).Port with
  | .error e => .error e
  | .ok portCfgs =>
    match labelMappingRelabelConfigs pm.Spec.TargetLabels.FromPod podLabelPfx with
    | .error e => .error (.invalidTargetLabels e)
    | .ok mapCfgs =>
      match parseDuration (epAt pm index).Interval with
      | .error msg => .error (.invalidScrapeInterval msg)
      | .ok interval =>
        match resolveTimeout (epAt pm index).Timeout interval with
        | .error e => .error e
        | .ok timeout =>
          .ok (assembledConfig pm index portCfgs mapCfgs interval timeout)

/-- The loop body of ScrapeConfigs over a list of endpoint indices: stop and
return the wrapped error of the first failing endpoint, else collect all
configurations in order. -/
def scrapeConfigsFrom (pm : PodMonitoring) : List Nat → Except CompileError (List ScrapeConfig)
  | [] => .ok []
  | i :: rest =>
    match endpontScrapeConfig pm i with
    | .error e => .error (.endpointError i e)
    | .ok c =>
      match scrapeConfigsFrom pm rest with
      | .error e => .error e
      | .ok cs => .ok (c :: cs)

/-- ScrapeConfigs: compile every endpoint, aborting on the first error. -/
def ScrapeConfigs (pm : PodMonitoring) : Except CompileError (List ScrapeConfig) :=
  scrapeConfigsFrom pm (List.range pm.Spec.Endpoints.length)

/-- ValidateCreate: at least one endpoint, and all endpoints must compile. -/
def ValidateCreate (pm : PodMonitoring) : Except CompileError Unit :=
  if pm.Spec.Endpoints.length == 0 then .error .noEndpoints
  else
    match ScrapeConfigs pm with
    | .error e => .error e
    | .ok _ => .ok ()

/-- ValidateUpdate: validity does not depend on state changes; the prior
object (any runtime.Object) is ignored. -/
def ValidateUpdate {α : Type} (pm : PodMonitoring) (_old : α) : Except CompileError Unit :=
  ValidateCreate pm

/-- ValidateDelete: deletions are always valid. -/
def ValidateDelete (_pm : PodMonitoring) : Except CompileError Unit :=
  .ok ()

/-- Whether an Except result is a success. -/
def exOk {ε α : Type} : Except ε α → Bool
  | .ok _ => true
  | .error _ => false

/-- Example endpoint: the port named web, scraped every 30 seconds. -/
def webEp : ScrapeEndpoint :=
  { Port := { typ := .str, strVal := "web" }, Interval := "30s" }

/-- Example endpoint with no port configured at all. -/
def noPortEp : ScrapeEndpoint := { Interval := "30s" }

/-- Example endpoint with a numeric port. -/
def numEp : ScrapeEndpoint :=
  { Port := { typ := .int, intVal := 8080 }, Interval := "30s" }

/-- Example endpoint whose timeout exceeds its interval. -/
def slowEp : ScrapeEndpoint :=
  { Port := { typ := .str, strVal := "web" }, Interval := "30s", Timeout := "45s" }

/-- Example endpoint with a port but an unset interval. -/
def noIntervalEp : ScrapeEndpoint :=
  { Port := { typ := .str, strVal := "web" } }

/-- The end-to-end example target of the specification. -/
def pmExample : PodMonitoring :=
  { Namespace := "ns1", Name := "app",
    Spec := { Selector := { MatchLabels := [("app", "x")] }, Endpoints := [webEp] } }

/-- A target whose first endpoint is invalid and whose second is valid. -/
def pmTwoEndpoints : PodMonitoring :=
  { Namespace := "ns1", Name := "app", Spec := { Endpoints := [noPortEp, webEp] } }

/-- The same target as pmTwoEndpoints with the first endpoint repaired. -/
def pmBothValid : PodMonitoring :=
  { Namespace := "ns1", Name := "app", Spec := { Endpoints := [numEp, webEp] } }

/-- A target whose only endpoint has timeout 45s against interval 30s. -/
def pmTimeout45 : PodMonitoring :=
  { Namespace := "ns1", Name := "app", Spec := { Endpoints := [slowEp] } }

/-- A target whose only endpoint has an unset interval. -/
def pmEmptyInterval : PodMonitoring :=
  { Namespace := "ns1", Name := "app", Spec := { Endpoints := [noIntervalEp] } }

/-- A target whose selector carries one expression with an unrecognized
operator. -/
def pmUnknownOp : PodMonitoring :=
  { Namespace := "ns1", Name := "app",
    Spec := { Selector := { MatchExpressions := [{ Key := "k", Operator := "Gt" }] },
              Endpoints := [webEp] } }

/-- The port rules generated for the port named web. -/
def portCfgsWeb : List RelabelConfig :=
  [portNameKeepCfg (MustNewRegexp "web"), instanceFromPortNameCfg]

/-- The job specification the compiler produces for pmExample. -/
def cfgExample : ScrapeConfig :=
  { JobName := "PodMonitoring/ns1/app/web",
    ServiceDiscoveryConfigs := [discoveryCfg],
    MetricsPath := "/metrics",
    ScrapeInterval := 30000,
    ScrapeTimeout := 30000,
    RelabelConfigs :=
      [ namespaceFilterCfg "ns1",
        { action := .keep, sourceLabels := ["__meta_kubernetes_pod_label_app"],
          regex := some (MustNewRegexp "x") },
        namespaceNormCfg, jobNormCfg "app",
        portNameKeepCfg (MustNewRegexp "web"), instanceFromPortNameCfg ] }

/-! ### Helper lemmas -/

/-- Association-list lookup is invariant under permutation when the keys are
distinct. -/
theorem lookup_eq_of_perm_of_nodup {l1 l2 : List (String × String)}
    (p : l1.Perm l2) (nd : (l1.map Prod.fst).Nodup) (k : String) :
    l1.lookup k = l2.lookup k := by
  induction p with
  | nil => rfl
  | cons x p ih =>
    obtain ⟨a, b⟩ := x
    simp only [List.map_cons, List.nodup_cons] at nd
    simp only [List.lookup]
    cases hka : k == a with
    | true => rfl
    | false => exact ih nd.2
  | swap x y l =>
    obtain ⟨a, b⟩ := x
    obtain ⟨c, d⟩ := y
    simp only [List.map_cons, List.nodup_cons, List.mem_cons] at nd
    simp only [List.lookup]
    cases hkc : k == c with
    | true =>
      cases hka : k == a with
      | true =>
        exact absurd ((eq_of_beq hkc).symm.trans (eq_of_beq hka))
          (fun hcontra => nd.1 (Or.inl hcontra))
      | false => rfl
    | false =>
      cases hka : k == a with
      | true => rfl
      | false => rfl
  | trans p1 p2 ih1 ih2 =>
    have nd2 := ((p1.map Prod.fst).nodup_iff).mp nd
    exact (ih1 nd).trans (ih2 nd2)

/-- If some listed endpoint index fails to compile, the index-list fold of
ScrapeConfigs fails. -/
theorem scrapeConfigsFrom_error_of_mem (pm : PodMonitoring) (l : List Nat)
    (i : Nat) (e : EndpointError) (hmem : i ∈ l)
    (he : endpontScrapeConfig pm i = .error e) :
    exOk (scrapeConfigsFrom pm l) = false := by
  induction l with
  | nil => cases hmem
  | cons a t ih =>
    cases hmem with
    | head => simp [scrapeConfigsFrom, he, exOk]
    | tail _ hmem2 =>
      cases ha : endpontScrapeConfig pm a with
      | error e2 => simp [scrapeConfigsFrom, ha, exOk]
      | ok c =>
        have hrec := ih hmem2
        cases hrest : scrapeConfigsFrom pm t with
        | error e2 => simp [scrapeConfigsFrom, ha, hrest, exOk]
        | ok cs => rw [hrest] at hrec; simp [exOk] at hrec

/-! ### Claims -/

/-- Claim C8: update validation ignores the prior state entirely (for any two
priors of any types the result is the same) and coincides with create
validation of the new state, and delete validation always succeeds. -/
theorem C8_validation_purity {α β : Type} (pm : PodMonitoring)
    (old1 : α) (old2 : β) :
    ValidateUpdate pm old1 = ValidateCreate pm ∧
    ValidateUpdate pm old2 = ValidateCreate pm ∧
    ValidateUpdate pm old1 = ValidateUpdate pm old2 ∧
    ValidateDelete pm = .ok () :=
  ⟨rfl, rfl, rfl, rfl⟩

/-- Claim C2, counterexample: a LabelMapping with From namespace and To unset
resolves (after defaulting) to the reserved target name namespace, yet the
compiler accepts it, because the collision check runs on the To field before
the defaulting: the claim as stated is false. -/
theorem C2_counterexample :
    labelMappingRelabelConfigs [{ From := "namespace", To := "" }] podLabelPfx =
      .ok [{ action := .replace,
             sourceLabels := [podLabelPfx ++ "namespace"],
             targetLabel := "namespace" }] ∧
    isPrometheusTargetLabel "namespace" = true :=
  ⟨rfl, rfl⟩

/-- Claim C2, amended: the label-mapping compiler succeeds exactly when no
mapping has its literal To field equal to a reserved identity label; in
particular every mapping with To equal to one of the six reserved names is
rejected, but a reserved name reached only by defaulting To to From is not. -/
theorem C2_collision_check (ms : List LabelMapping) (pfx : String) :
    exOk (labelMappingRelabelConfigs ms pfx) = true ↔
      ∀ m ∈ ms, isPrometheusTargetLabel m.To = false := by
  induction ms with
  | nil => simp [labelMappingRelabelConfigs, exOk]
  | cons m ms ih =>
    cases h : isPrometheusTargetLabel m.To with
    | true => simp [labelMappingRelabelConfigs, h, exOk]
    | false =>
      cases hrec : labelMappingRelabelConfigs ms pfx with
      | error e =>
        rw [hrec] at ih
        simp only [labelMappingRelabelConfigs, h, Bool.false_eq_true, if_false, hrec, exOk,
          List.mem_cons] at ih ⊢
        constructor
        · intro hfalse; exact absurd hfalse (by simp)
        · intro hall
          exact absurd (ih.mpr fun m2 hm2 => hall m2 (Or.inr hm2)) (by simp)
      | ok cfgs =>
        rw [hrec] at ih
        simp only [labelMappingRelabelConfigs, h, Bool.false_eq_true, if_false, hrec, exOk,
          List.mem_cons] at ih ⊢
        constructor
        · intro _ m2 hm2
          cases hm2 with
          | inl heq => rw [heq]; exact h
          | inr hmem => exact ih.mp trivial m2 hmem
        · intro _; trivial

/-- Claim C1, counterexample: with endpoint 0 lacking a port and endpoint 1
valid, ScrapeConfigs aborts with the wrapped error of endpoint 0 and produces
no job specification at all, even though endpoint 1 compiles on its own: the
claim that the other endpoints' job specifications are still produced is
false. -/
theorem C1_counterexample :
    ScrapeConfigs pmTwoEndpoints = .error (.endpointError 0 .missingPort) ∧
    exOk (endpontScrapeConfig pmTwoEndpoints 1) = true :=
  ⟨rfl, rfl⟩

/-- Claim C1, amended: per-endpoint compilation is isolated, in that an
endpoint's own compilation is a function of the target metadata, the selector,
the label mappings, and that endpoint alone, so a failing sibling endpoint
cannot change it; but the aggregate ScrapeConfigs aborts with no output at all
as soon as any endpoint fails. -/
theorem C1_endpoint_isolation (pm pm2 : PodMonitoring) (j i : Nat)
    (e : EndpointError)
    (h1 : pm.Namespace = pm2.Namespace) (h2 : pm.Name = pm2.Name)
    (h3 : pm.Spec.Selector = pm2.Spec.Selector)
    (h4 : pm.Spec.TargetLabels = pm2.Spec.TargetLabels)
    (h5 : epAt pm j = epAt pm2 j)
    (hi : i < pm.Spec.Endpoints.length)
    (he : endpontScrapeConfig pm i = .error e) :
    endpontScrapeConfig pm j = endpontScrapeConfig pm2 j ∧
    exOk (ScrapeConfigs pm) = false := by
  constructor
  · unfold endpontScrapeConfig assembledConfig
    rw [h1, h2, h3, h4, h5]
  · exact scrapeConfigsFrom_error_of_mem pm _ i e (List.mem_range.mpr hi) he

/-- Witness for C1_endpoint_isolation: endpoint 1 compiles the same whether
its sibling endpoint 0 is broken (pmTwoEndpoints) or valid (pmBothValid), and
the target with the broken sibling yields no output. -/
theorem C1_endpoint_isolation_witness :
    endpontScrapeConfig pmTwoEndpoints 1 = endpontScrapeConfig pmBothValid 1 ∧
    exOk (ScrapeConfigs pmTwoEndpoints) = false :=
  C1_endpoint_isolation pmTwoEndpoints pmBothValid 1 0 .missingPort
    rfl rfl rfl rfl rfl (by decide) rfl

/-- Claim C3: port resolution takes the string-name branch whenever the name
is non-empty (regardless of the numeric value), the numeric branch when the
name is empty and the number non-zero, and fails the endpoint with the
missing-port error when neither is set. -/
theorem C3_port_resolution (p1 p2 : IntOrString) (pm : PodMonitoring)
    (index : Nat)
    (h1 : p1.strVal ≠ "")
    (h2s : p2.strVal = "") (h2i : p2.intVal ≠ 0)
    (h3s : (epAt pm index).Port.strVal = "")
    (h3i : (epAt pm index).Port.intVal = 0) :
    portRelabelCfgs p1 = portNamePath p1.strVal ∧
    portRelabelCfgs p2 = portNumberPath p2.intVal ∧
    endpontScrapeConfig pm index = .error .missingPort := by
  refine ⟨?_, ?_, ?_⟩
  · simp [portRelabelCfgs, h1]
  · simp [portRelabelCfgs, h2s, h2i]
  · have hmp : portRelabelCfgs (epAt pm index).Port = .error .missingPort := by
      simp [portRelabelCfgs, h3s, h3i]
    unfold endpontScrapeConfig
    rw [hmp]

/-- Witness for C3_port_resolution: a port with both the name web and the
number 8080 populated resolves through the name branch, a purely numeric port
through the numeric branch, and the portless endpoint 0 of pmTwoEndpoints
fails with the missing-port error. -/
theorem C3_port_resolution_witness :
    portRelabelCfgs { typ := .str, intVal := 8080, strVal := "web" } =
      portNamePath "web" ∧
    portRelabelCfgs { typ := .int, intVal := 8080, strVal := "" } =
      portNumberPath 8080 ∧
    endpontScrapeConfig pmTwoEndpoints 0 = .error .missingPort :=
  C3_port_resolution { typ := .str, intVal := 8080, strVal := "web" }
    { typ := .int, intVal := 8080, strVal := "" } pmTwoEndpoints 0
    (by decide) rfl (by decide) rfl rfl

/-- Claim C9: sanitization is length-preserving, produces only characters of
the label-name alphabet, and maps each position to itself when the input
character is already legal and to an underscore otherwise. -/
theorem C9_sanitize (name : String) (i : Nat) (c : Char)
    (hc : name.data[i]? = some c) :
    ((sanitizeLabelName name).data.all isValidLabelChar) = true ∧
    (sanitizeLabelName name).data.length = name.data.length ∧
    (sanitizeLabelName name).data[i]? =
      some (if isValidLabelChar c then c else '_') := by
  refine ⟨?_, ?_, ?_⟩
  · simp only [sanitizeLabelName, List.all_eq_true]
    intro x hx
    simp only [List.mem_map] at hx
    obtain ⟨y, _, rfl⟩ := hx
    by_cases h : isValidLabelChar y
    · simp [h]
    · simp only [h, if_false, Bool.false_eq_true]; decide
  · simp [sanitizeLabelName]
  · simp [sanitizeLabelName, List.getElem?_map, hc]

/-- Witness for C9_sanitize at the name a.b, position 0. -/
theorem C9_sanitize_witness :
    ((sanitizeLabelName "a.b").data.all isValidLabelChar) = true ∧
    (sanitizeLabelName "a.b").data.length = ("a.b" : String).data.length ∧
    (sanitizeLabelName "a.b").data[0]? =
      some (if isValidLabelChar 'a' then 'a' else '_') :=
  C9_sanitize "a.b" 0 'a' rfl

/-- Claim C4: with port and mappings compiling and the interval parsing, an
unset timeout defaults the job specification timeout to the interval and
compilation succeeds, while a timeout parsing strictly greater than the
interval aborts the endpoint with the timeout-exceeds-interval error. -/
theorem C4_timeout_rule (pm pm2 : PodMonitoring) (index index2 : Nat)
    (portCfgs mapCfgs portCfgs2 mapCfgs2 : List RelabelConfig)
    (ival ival2 t : Nat)
    (hport : portRelabelCfgs (epAt pm index).Port = .ok portCfgs)
    (hmap : labelMappingRelabelConfigs pm.Spec.TargetLabels.FromPod podLabelPfx = .ok mapCfgs)
    (hi : parseDuration (epAt pm index).Interval = .ok ival)
    (hto : (epAt pm index).Timeout = "")
    (hport2 : portRelabelCfgs (epAt pm2 index2).Port = .ok portCfgs2)
    (hmap2 : labelMappingRelabelConfigs pm2.Spec.TargetLabels.FromPod podLabelPfx = .ok mapCfgs2)
    (hi2 : parseDuration (epAt pm2 index2).Interval = .ok ival2)
    (ht2 : parseDuration (epAt pm2 index2).Timeout = .ok t)
    (hgt : ival2 < t) :
    endpontScrapeConfig pm index =
      .ok (assembledConfig pm index portCfgs mapCfgs ival ival) ∧
    (assembledConfig pm index portCfgs mapCfgs ival ival).ScrapeTimeout = ival ∧
    endpontScrapeConfig pm2 index2 =
      .error (.timeoutGreaterThanInterval t ival2) := by
  refine ⟨?_, rfl, ?_⟩
  · unfold endpontScrapeConfig
    simp only [hport, hmap, hi]
    have hrt : resolveTimeout (epAt pm index).Timeout ival = .ok ival := by
      rw [hto]; rfl
    simp only [hrt]
  · unfold endpontScrapeConfig
    simp only [hport2, hmap2, hi2]
    have hne : (epAt pm2 index2).Timeout ≠ "" := by
      intro hemp
      rw [hemp] at ht2
      have hpe : parseDuration "" = Except.error (durationErrMsg "") := rfl
      rw [hpe] at ht2
      exact Except.noConfusion ht2
    have hrt : resolveTimeout (epAt pm2 index2).Timeout ival2 =
        .error (.timeoutGreaterThanInterval t ival2) := by
      unfold resolveTimeout
      rw [if_pos hne]
      simp only [ht2]
      rw [if_pos hgt]
    simp only [hrt]

/-- Witness for C4_timeout_rule: pmExample has interval 30s and no timeout and
compiles with timeout 30000 milliseconds; pmTimeout45 has interval 30s and
timeout 45s and fails with the timeout-exceeds-interval error. -/
theorem C4_timeout_rule_witness :
    endpontScrapeConfig pmExample 0 =
      .ok (assembledConfig pmExample 0 portCfgsWeb [] 30000 30000) ∧
    (assembledConfig pmExample 0 portCfgsWeb [] 30000 30000).ScrapeTimeout = 30000 ∧
    endpontScrapeConfig pmTimeout45 0 =
      .error (.timeoutGreaterThanInterval 45000 30000) :=
  C4_timeout_rule pmExample pmTimeout45 0 0 portCfgsWeb [] portCfgsWeb []
    30000 30000 45000 rfl rfl rfl rfl rfl rfl rfl rfl (by decide)

/-- Claim C5: the rule sequence of every successfully compiled endpoint is, in
order, the namespace filter, the sorted exact-match selector rules, the
expression rules in declaration order, the two identity-normalization rules,
the port rules, and the label-mapping rules. -/
theorem C5_rule_order (pm : PodMonitoring) (index : Nat) (cfg : ScrapeConfig)
    (portCfgs mapCfgs : List RelabelConfig)
    (hport : portRelabelCfgs (epAt pm index).Port = .ok portCfgs)
    (hmap : labelMappingRelabelConfigs pm.Spec.TargetLabels.FromPod podLabelPfx = .ok mapCfgs)
    (h : endpontScrapeConfig pm index = .ok cfg) :
    cfg.RelabelConfigs =
      namespaceFilterCfg pm.Namespace ::
        (exactMatchCfgs pm.Spec.Selector.MatchLabels
          ++ expressionCfgs pm.Spec.Selector.MatchExpressions
          ++ [namespaceNormCfg, jobNormCfg pm.Name]
          ++ portCfgs ++ mapCfgs) := by
  unfold endpontScrapeConfig at h
  simp only [hport, hmap] at h
  cases hi : parseDuration (epAt pm index).Interval with
  | error msg => simp only [hi] at h; exact Except.noConfusion h
  | ok ival =>
    simp only [hi] at h
    cases ht : resolveTimeout (epAt pm index).Timeout ival with
    | error e => simp only [ht] at h; exact Except.noConfusion h
    | ok t =>
      simp only [ht] at h
      injection h with h2
      rw [← h2]; rfl

/-- Witness for C5_rule_order: the end-to-end example of the specification,
whose six rules appear in exactly the documented order. -/
theorem C5_rule_order_witness :
    cfgExample.RelabelConfigs =
      namespaceFilterCfg pmExample.Namespace ::
        (exactMatchCfgs pmExample.Spec.Selector.MatchLabels
          ++ expressionCfgs pmExample.Spec.Selector.MatchExpressions
          ++ [namespaceNormCfg, jobNormCfg pmExample.Name]
          ++ portCfgsWeb ++ []) :=
  C5_rule_order pmExample 0 cfgExample portCfgsWeb [] rfl rfl rfl

/-- Claim C10: an endpoint whose interval is the empty string is never
defaulted: when the port and mapping stages pass, it fails with the
invalid-duration error for the empty string, and no successfully compiled
endpoint ever has an empty interval. -/
theorem C10_empty_interval (pm pm2 : PodMonitoring) (index index2 : Nat)
    (portCfgs mapCfgs : List RelabelConfig) (cfg2 : ScrapeConfig)
    (hport : portRelabelCfgs (epAt pm index).Port = .ok portCfgs)
    (hmap : labelMappingRelabelConfigs pm.Spec.TargetLabels.FromPod podLabelPfx = .ok mapCfgs)
    (hempty : (epAt pm index).Interval = "")
    (hok : endpontScrapeConfig pm2 index2 = .ok cfg2) :
    endpontScrapeConfig pm index =
      .error (.invalidScrapeInterval (durationErrMsg "")) ∧
    ((epAt pm2 index2).Interval == "") = false := by
  constructor
  · unfold endpontScrapeConfig
    simp only [hport, hmap, hempty]
    have hpe : parseDuration "" = Except.error (durationErrMsg "") := rfl
    simp only [hpe]
  · cases hbe : (epAt pm2 index2).Interval == "" with
    | false => rfl
    | true =>
      have heq : (epAt pm2 index2).Interval = "" := eq_of_beq hbe
      unfold endpontScrapeConfig at hok
      cases hp : portRelabelCfgs (epAt pm2 index2).Port with
      | error e => simp only [hp] at hok; exact Except.noConfusion hok
      | ok pc =>
        simp only [hp] at hok
        cases hm : labelMappingRelabelConfigs pm2.Spec.TargetLabels.FromPod podLabelPfx with
        | error e => simp only [hm] at hok; exact Except.noConfusion hok
        | ok mc =>
          simp only [hm, heq] at hok
          have hpe : parseDuration "" = Except.error (durationErrMsg "") := rfl
          simp only [hpe] at hok
          exact Except.noConfusion hok

/-- Witness for C10_empty_interval: pmEmptyInterval fails with the
invalid-duration error for the empty string, while the successfully compiled
pmExample endpoint has a non-empty interval. -/
theorem C10_empty_interval_witness :
    endpontScrapeConfig pmEmptyInterval 0 =
      .error (.invalidScrapeInterval (durationErrMsg "")) ∧
    ((epAt pmExample 0).Interval == "") = false :=
  C10_empty_interval pmEmptyInterval pmExample 0 0 portCfgsWeb [] cfgExample
    rfl rfl rfl rfl

/-- Claim C6: the exact-match selector rules are emitted in lexicographically
sorted key order, and the emitted rules are invariant under any permutation of
the input association list (the model of map iteration order), provided the
keys are distinct as they are in a Go map. -/
theorem C6_sorted_selector (ml ml2 : List (String × String))
    (hp : ml.Perm ml2) (hnd : (ml.map Prod.fst).Nodup) :
    exactMatchCfgs ml = exactMatchCfgs ml2 ∧
      (selectorKeys ml).Sorted (fun a b => a ≤ b) := by
  have hkeys : selectorKeys ml = selectorKeys ml2 :=
    List.eq_of_perm_of_sorted
      (((List.perm_insertionSort _ _).trans (hp.map Prod.fst)).trans
        (List.perm_insertionSort _ _).symm)
      (List.sorted_insertionSort _ _) (List.sorted_insertionSort _ _)
  refine ⟨?_, List.sorted_insertionSort _ _⟩
  unfold exactMatchCfgs
  rw [← hkeys]
  refine List.map_congr_left ?_
  intro k _
  rw [lookup_eq_of_perm_of_nodup hp hnd k]

/-- Witness for C6_sorted_selector: the two iteration orders of the selector
with keys b and a produce identical rules, and the emitted key order is
sorted. -/
theorem C6_sorted_selector_witness :
    exactMatchCfgs [("b", "2"), ("a", "1")] =
      exactMatchCfgs [("a", "1"), ("b", "2")] ∧
      (selectorKeys [("b", "2"), ("a", "1")]).Sorted (fun a b => a ≤ b) :=
  C6_sorted_selector [("b", "2"), ("a", "1")] [("a", "1"), ("b", "2")]
    (by decide) (by decide)

/-- Claim C7: an expression whose operator is none of the four recognized ones
contributes no rule and no error; the rule sequence, and the whole compiled
endpoint, equal those produced with the expression removed. -/
theorem C7_unknown_operator (e1 e2 : List LabelSelectorRequirement)
    (exp : LabelSelectorRequirement) (pm : PodMonitoring) (index : Nat)
    (h1 : exp.Operator ≠ LabelSelectorOpIn)
    (h2 : exp.Operator ≠ LabelSelectorOpNotIn)
    (h3 : exp.Operator ≠ LabelSelectorOpExists)
    (h4 : exp.Operator ≠ LabelSelectorOpDoesNotExist)
    (hsel : pm.Spec.Selector.MatchExpressions = e1 ++ exp :: e2) :
    expressionCfg exp = [] ∧
    expressionCfgs (e1 ++ exp :: e2) = expressionCfgs (e1 ++ e2) ∧
    endpontScrapeConfig pm index =
      endpontScrapeConfig
        { pm with Spec := { pm.Spec with
            Selector := { pm.Spec.Selector with
              MatchExpressions := e1 ++ e2 } } } index := by
  have b1 : (exp.Operator == LabelSelectorOpIn) = false := beq_eq_false_iff_ne.mpr h1
  have b2 : (exp.Operator == LabelSelectorOpNotIn) = false := beq_eq_false_iff_ne.mpr h2
  have b3 : (exp.Operator == LabelSelectorOpExists) = false := beq_eq_false_iff_ne.mpr h3
  have b4 : (exp.Operator == LabelSelectorOpDoesNotExist) = false := beq_eq_false_iff_ne.mpr h4
  have hcfg : expressionCfg exp = [] := by
    simp [expressionCfg, b1, b2, b3, b4]
  have hcfgs : expressionCfgs (e1 ++ exp :: e2) = expressionCfgs (e1 ++ e2) := by
    simp [expressionCfgs, hcfg]
  refine ⟨hcfg, hcfgs, ?_⟩
  unfold endpontScrapeConfig assembledConfig epAt
  simp only [hsel, hcfgs]

/-- Witness for C7_unknown_operator: the operator Gt is ignored, and
pmUnknownOp compiles exactly as the same target without the expression. -/
theorem C7_unknown_operator_witness :
    expressionCfg { Key := "k", Operator := "Gt" } = [] ∧
    expressionCfgs ([] ++ { Key := "k", Operator := "Gt" } :: []) =
      expressionCfgs ([] ++ []) ∧
    endpontScrapeConfig pmUnknownOp 0 =
      endpontScrapeConfig
        { pmUnknownOp with Spec := { pmUnknownOp.Spec with
            Selector := { pmUnknownOp.Spec.Selector with
              MatchExpressions := [] ++ [] } } } 0 :=
  C7_unknown_operator [] [] { Key := "k", Operator := "Gt" } pmUnknownOp 0
    (by decide) (by decide) (by decide) (by decide) rfl

/-- Witness for C2_collision_check: a mapping whose To field is the reserved
name namespace makes the compiler fail. -/
theorem C2_collision_check_witness :
    exOk (labelMappingRelabelConfigs [{ From := "x", To := "namespace" }] podLabelPfx) = false := by
  have h := C2_collision_check [{ From := "x", To := "namespace" }] podLabelPfx
  cases hb : exOk (labelMappingRelabelConfigs [{ From := "x", To := "namespace" }] podLabelPfx) with
  | false => rfl
  | true =>
    have hfalse := h.mp hb { From := "x", To := "namespace" } (List.mem_singleton.mpr rfl)
    exact absurd hfalse (by decide)

/-- Witness for C8_validation_purity at two priors of different types. -/
theorem C8_validation_purity_witness :
    ValidateUpdate pmExample (42 : Nat) = ValidateCreate pmExample ∧
    ValidateUpdate pmExample "old" = ValidateCreate pmExample ∧
    ValidateUpdate pmExample (42 : Nat) = ValidateUpdate pmExample "old" ∧
    ValidateDelete pmExample = .ok () :=
  C8_validation_purity pmExample (42 : Nat) "old"
